import Mathlib

set_option maxRecDepth 100000

/-!
# Verification of the client-side dashboard logic in `static/app.js`

A shallow embedding of the filter/state-derivation and rendering pipeline of
the dashboard front end: scope resolution, the delta classifier, the table
renderer and its search companion, the three data loaders, and the summary
percentage extension.  JavaScript runtime values are modelled by an explicit
dynamic value type `JVal`; machine numbers that occur in the data in play are
integers (counts) and exact fractions (the percentage computation), and the
JavaScript coercion rules (`Number(...)`, truthiness, `??`, `||`, template
literals) are embedded as explicit functions on `JVal`.
-/

namespace Complaints

/-- Dynamic JavaScript values as they occur in the API payloads handled by
`static/app.js`: strings, integer numbers, `null`, `undefined`, `NaN` and
booleans.  (Non-integer numbers occur only in the percentage computation,
which is modelled separately by exact integer fractions.) -/
inductive JVal where
  | str (s : String)
  | int (n : ℤ)
  | null
  | undefVal
  | nan
  | bool (b : Bool)
  deriving Repr, DecidableEq

/-- JavaScript truthiness of a `JVal`. -/
def jsTruthy : JVal → Bool
  | .str s => s != ""
  | .int n => n != 0
  | .null => false
  | .undefVal => false
  | .nan => false
  | .bool b => b

/-- Decimal digit-list value: `some` of the number it spells when the list is
a non-empty run of digits, else `none`. -/
def decDigits : List Char → Option ℕ
  | [] => none
  | ds => if ds.all Char.isDigit then some (ds.foldl (fun a c => a * 10 + (c.toNat - 48)) 0) else none

/-- JavaScript `Number(s)` on a string, for the string shapes this client
receives: the empty string is `0`, an optionally negated run of decimal
digits is that integer, anything else is `NaN`. -/
def strToNumber (s : String) : JVal :=
  match s.data with
  | [] => .int 0
  | '-' :: ds =>
    match decDigits ds with
    | some n => .int (-(n : ℤ))
    | none => .nan
  | ds =>
    match decDigits ds with
    | some n => .int (n : ℤ)
    | none => .nan

/-- JavaScript `Number(v)`: integers stay, `null` becomes `0`, `undefined`
becomes `NaN`, strings via `strToNumber`, booleans become `0`/`1`. -/
def toNumber : JVal → JVal
  | .int n => .int n
  | .null => .int 0
  | .undefVal => .nan
  | .nan => .nan
  | .str s => strToNumber s
  | .bool b => .int (if b then 1 else 0)

/-- JavaScript `String(v)` / template-literal interpolation of a `JVal`. -/
def jsToString : JVal → String
  | .str s => s
  | .int n => toString n
  | .null => "null"
  | .undefVal => "undefined"
  | .nan => "NaN"
  | .bool b => if b then "true" else "false"

/-- JavaScript `v > 0` (numeric coercion; `false` on `NaN`). -/
def jsGtZero (v : JVal) : Bool :=
  match toNumber v with
  | .int n => decide (0 < n)
  | _ => false

/-- JavaScript `v < 0` (numeric coercion; `false` on `NaN`). -/
def jsLtZero (v : JVal) : Bool :=
  match toNumber v with
  | .int n => decide (n < 0)
  | _ => false

/-- JavaScript `a || b`. -/
def jsOr (a b : JVal) : JVal := if jsTruthy a then a else b

/-- JavaScript `a ?? b`. -/
def jsCoalesce (a b : JVal) : JVal :=
  match a with
  | .null => b
  | .undefVal => b
  | _ => a

/-- The list `l` has `p` as a prefix (character lists). -/
def hasPfx : List Char → List Char → Bool
  | [], _ => true
  | _ :: _, [] => false
  | p :: ps, c :: cs => p == c && hasPfx ps cs

/-- The pattern `pat` occurs as a contiguous run inside a character list. -/
def listHasSub (pat : List Char) : List Char → Bool
  | [] => hasPfx pat []
  | c :: cs => hasPfx pat (c :: cs) || listHasSub pat cs

/-- The string `s` contains `pat` as a substring (models JavaScript
`String.prototype.includes`). -/
def strHasSub (s pat : String) : Bool := listHasSub pat.data s.data

/-- JavaScript `String.prototype.toLowerCase` on the data in play (ASCII
case folding; the Arabic text this dashboard renders has no case). -/
def jsToLower (s : String) : String := String.mk (s.data.map Char.toLower)

/-- JavaScript `String.prototype.trim`: strip leading and trailing
whitespace. -/
def jsTrim (s : String) : String :=
  String.mk (((s.data.dropWhile Char.isWhitespace).reverse.dropWhile Char.isWhitespace).reverse)

-- ==================== Delta classifier (app.js lines 160–196) ====================

/-- The CSS class set by `updateDelta` on the delta element
(`delta-positive` / `delta-negative` / `delta-neutral`). -/
inductive DeltaClass where
  | positive
  | negative
  | neutral
  deriving Repr, DecidableEq

/-- The rendered state of a delta element: its text content and CSS class. -/
structure DeltaOutput where
  text : String
  cls : DeltaClass
  deriving Repr, DecidableEq

/-- Which branch of `updateDelta` (app.js lines 179–191) fires: the chain
tests `prevVal === null || deltaVal === null || prevDate === null`, then
`deltaVal > 0`, then `deltaVal < 0`, with a final `else`. -/
inductive DeltaKind where
  | noPriorRun
  | increased
  | decreased
  | unchanged
  deriving Repr, DecidableEq

/-- Branch selection of `updateDelta` in `loadTotals` (app.js lines 179–191),
verbatim from the `if`-chain of the source. -/
def updateDeltaKind (prevVal deltaVal prevDate : JVal) : DeltaKind :=
  if prevVal = .null ∨ deltaVal = .null ∨ prevDate = .null then .noPriorRun
  else if jsGtZero deltaVal then .increased
  else if jsLtZero deltaVal then .decreased
  else .unchanged

/-- The closure `updateDelta` of `loadTotals` (app.js lines 176–192): sets
the element text and one of the three delta CSS classes.  `prevDate` is the
enclosing `loadTotals` local read by the closure. -/
def updateDelta (prevVal deltaVal prevDate : JVal) (label : String) : DeltaOutput :=
  match updateDeltaKind prevVal deltaVal prevDate with
  | .noPriorRun =>
      { text := "لا يوجد تشغيل سابق لـ " ++ label, cls := .neutral }
  | .increased =>
      { text := "+" ++ jsToString deltaVal ++ " مقارنةً بالتشغيل السابق (" ++ jsToString prevDate ++ ")",
        cls := .positive }
  | .decreased =>
      { text := jsToString deltaVal ++ " مقارنةً بالتشغيل السابق (" ++ jsToString prevDate ++ ")",
        cls := .negative }
  | .unchanged =>
      { text := "لا تغيير مقارنةً بالتشغيل السابق (" ++ jsToString prevDate ++ ")",
        cls := .neutral }

/-- Parsing of a previous-value field in `loadTotals` (app.js lines 163–165):
`data.prev_x !== null ? Number(data.prev_x) : null`. -/
def parsePrevVal (v : JVal) : JVal :=
  if v = .null then .null else toNumber v

-- ==================== Filter state and scope (app.js lines 18–51) ====================

/-- The global `currentFilter` object (app.js lines 18–21). -/
structure FilterState where
  sector : Option String
  municipality : Option String
  deriving Repr, DecidableEq

/-- A filter field as the event handlers leave it: never the empty string
(`sectorSelect.value || ""` guards and `val || null` assignments store
either `null` or a non-empty string). -/
def FilterState.wf (f : FilterState) : Prop :=
  f.sector ≠ some "" ∧ f.municipality ≠ some ""

instance (f : FilterState) : Decidable f.wf := by
  unfold FilterState.wf; infer_instance

/-- Truthiness of a nullable string (`null` and `""` are falsy). -/
def jsTruthyOpt : Option String → Bool
  | none => false
  | some s => s != ""

/-- Function `getBodySector` (app.js lines 34–39): the `data-sector` attribute of the
page body, with `s || null` collapsing the empty string to `null`. -/
def getBodySector (attr : Option String) : Option String :=
  match attr with
  | none => none
  | some s => if s == "" then none else some s

/-- Function `getSectorKey` (app.js lines 41–45). -/
def getSectorKey (attr : Option String) (f : FilterState) : Option String :=
  let bodySector := getBodySector attr
  if jsTruthyOpt bodySector then bodySector else f.sector

/-- Function `getMunicipalityFilter` (app.js lines 47–51). -/
def getMunicipalityFilter (attr : Option String) (f : FilterState) : Option String :=
  let bodySector := getBodySector attr
  if jsTruthyOpt bodySector then none else f.municipality

/-- Hexadecimal digit (uppercase), for percent-encoding. -/
def hexDigitChar (n : ℕ) : Char :=
  if n < 10 then Char.ofNat (48 + n) else Char.ofNat (55 + n)

/-- Percent-encoding of one byte, `%XX` with uppercase hex. -/
def percentEncodeByte (b : UInt8) : String :=
  String.mk ['%', hexDigitChar (b.toNat / 16), hexDigitChar (b.toNat % 16)]

/-- Characters `encodeURIComponent` leaves unescaped:
`A–Z a–z 0–9 - _ . ! ~ * ' ( )`. -/
def uriUnreserved (c : Char) : Bool :=
  ('A' ≤ c && c ≤ 'Z') || ('a' ≤ c && c ≤ 'z') || ('0' ≤ c && c ≤ '9') ||
  c == '-' || c == '_' || c == '.' || c == '!' || c == '~' || c == '*' ||
  c == Char.ofNat 39 || c == '(' || c == ')'

/-- JavaScript `encodeURIComponent`: unreserved characters kept, every other
character replaced by the percent-encoding of its UTF-8 bytes. -/
def encodeURIComponent (s : String) : String :=
  s.data.foldl
    (fun acc c =>
      acc ++ (if uriUnreserved c then String.mk [c]
              else (String.utf8EncodeChar c).foldl (fun a b => a ++ percentEncodeByte b) ""))
    ""

/-- URL selection of `loadTotals` (app.js lines 139–150). -/
def loadTotalsUrl (attr : Option String) (f : FilterState) : String :=
  let bodySector := getBodySector attr
  let filterSector := getSectorKey attr f
  let filterMuni := getMunicipalityFilter attr f
  if jsTruthyOpt bodySector then "/api/totals/sector/" ++ bodySector.getD ""
  else if jsTruthyOpt filterMuni then "/api/totals/municipality/" ++ encodeURIComponent (filterMuni.getD "")
  else if jsTruthyOpt filterSector then "/api/totals/sector/" ++ filterSector.getD ""
  else "/api/totals"

/-- Query-string selection of `loadChart` (app.js lines 345–352). -/
def loadChartQuery (attr : Option String) (f : FilterState) : String :=
  let bodySector := getBodySector attr
  let muni := getMunicipalityFilter attr f
  let sector := getSectorKey attr f
  if jsTruthyOpt bodySector then "?scope=sector&sector=" ++ encodeURIComponent (bodySector.getD "")
  else if jsTruthyOpt muni then "?scope=municipality&municipality=" ++ encodeURIComponent (muni.getD "")
  else if jsTruthyOpt sector then "?scope=sector&sector=" ++ encodeURIComponent (sector.getD "")
  else "?scope=all"

/-- Request decision of `loadMunicipalityDetails` (app.js lines 262–285): on
a sector-bound page it clears its containers and fetches nothing; with no
municipality selected it shows a placeholder and fetches nothing; otherwise
it fetches the details endpoint for the selected municipality. -/
def loadDetailsRequest (attr : Option String) (f : FilterState) : Option String :=
  if jsTruthyOpt (getBodySector attr) then none
  else
    let muni := getMunicipalityFilter attr f
    if jsTruthyOpt muni then
      some ("/api/municipality/" ++ encodeURIComponent (muni.getD "") ++ "/details")
    else none

/-- The resolved query restriction of the specification (§4.1). -/
inductive Scope where
  | allData
  | bySector (key : String)
  | byMunicipality (name : String)
  deriving Repr, DecidableEq

/-- Scope resolution exactly as the specification words it (§4.1): a page
bound to a fixed sector resolves to that sector unconditionally; otherwise a
selected municipality wins, then a selected sector, then all data. -/
def resolveScope (attr : Option String) (f : FilterState) : Scope :=
  match getBodySector attr with
  | some b => .bySector b
  | none =>
    match f.municipality with
    | some m => .byMunicipality m
    | none =>
      match f.sector with
      | some k => .bySector k
      | none => .allData

/-- The totals endpoint for a scope (the source leaves sector keys
unencoded and encodes municipality names). -/
def totalsUrlOfScope : Scope → String
  | .allData => "/api/totals"
  | .bySector k => "/api/totals/sector/" ++ k
  | .byMunicipality m => "/api/totals/municipality/" ++ encodeURIComponent m

/-- The chart compare query for a scope. -/
def chartQueryOfScope : Scope → String
  | .allData => "?scope=all"
  | .bySector k => "?scope=sector&sector=" ++ encodeURIComponent k
  | .byMunicipality m => "?scope=municipality&municipality=" ++ encodeURIComponent m

-- ==================== Table renderer (app.js lines 207–259) ====================

/-- A table row: a JSON object mapping column names to scalar values, with
key membership standing for property presence. -/
abbrev Row := List (String × JVal)

/-- Concatenation of a list of strings. -/
def strConcat : List String → String
  | [] => ""
  | s :: rest => s ++ strConcat rest

/-- Rendering of a cell value (app.js line 232):
`val === null || val === undefined ? "" : val`, where `val` is `row[c]`
(absent property reads as `undefined`). -/
def cellText (v : Option JVal) : String :=
  match v with
  | none => ""
  | some .null => ""
  | some .undefVal => ""
  | some w => jsToString w

/-- Function `buildTableHtml` (app.js lines 207–238): empty input yields a "no data"
placeholder; otherwise the column set comes from `preferredOrder` filtered to
properties of the first row, falling back to the first row's keys, and every
row is emitted as a `<tr>` of `<td>` cells over that column set. -/
def buildTableHtml (rows : List Row) (preferredOrder : List String) (title : JVal) : String :=
  if rows.isEmpty then "<div class=\"table-empty\">لا توجد بيانات لعرضها.</div>"
  else
    let first := rows.headD []
    let cols₀ : List String :=
      if preferredOrder.length > 0 then preferredOrder.filter (fun c => (first.lookup c).isSome)
      else []
    let cols := if cols₀.length = 0 then first.map Prod.fst else cols₀
    let titleHtml := if jsTruthy title then "<div class=\"table-title\">" ++ jsToString title ++ "</div>" else ""
    let headHtml := cols.foldl (fun acc c => acc ++ ("<th>" ++ c ++ "</th>")) ""
    let bodyHtml := rows.foldl
      (fun acc row =>
        (cols.foldl (fun a c => a ++ ("<td>" ++ cellText (row.lookup c) ++ "</td>"))
          (acc ++ "<tr>")) ++ "</tr>")
      ""
    titleHtml ++ "<div class=\"table-wrapper\"><table class=\"data-table\"><thead><tr>" ++ headHtml ++
      "</tr></thead><tbody>" ++ bodyHtml ++ "</tbody></table></div>"

/-- Count of occurrences of `<tr` in a character list. -/
def countTR : List Char → ℕ
  | '<' :: 't' :: 'r' :: rest => countTR rest + 1
  | _ :: rest => countTR rest
  | [] => 0

/-- The column set as the specification words it (§4.3): filter
`preferredColumnOrder` down to keys actually present in the first row; if
that yields zero columns, fall back to the first row's own key order. -/
def specTableCols (rows : List Row) (preferredOrder : List String) : List String :=
  match rows with
  | [] => []
  | first :: _ =>
    let keys := first.map Prod.fst
    let filtered := preferredOrder.filter (fun c => keys.contains c)
    if filtered = [] then keys else filtered

/-- Cell text as the specification words it (§4.3): `null` or absent renders
as the empty string, all other values as their string form. -/
def specCellText (row : Row) (c : String) : String :=
  match row.lookup c with
  | none => ""
  | some .null => ""
  | some .undefVal => ""
  | some w => jsToString w

/-- The rendered table as the specification describes it: a fixed column
set, and every row rendered as the cell texts over exactly that column set
(rows are never re-inspected for extra keys). -/
structure SpecTable where
  cols : List String
  cells : List (List String)
  deriving Repr, DecidableEq

/-- Specification-side table construction (§4.3). -/
def specTable (rows : List Row) (preferredOrder : List String) : SpecTable :=
  { cols := specTableCols rows preferredOrder
    cells := rows.map (fun r => (specTableCols rows preferredOrder).map (specCellText r)) }

/-- Plain formatting of a `SpecTable` into the markup skeleton
`buildTableHtml` emits. -/
def specTableHtml (t : SpecTable) (titleHtml : String) : String :=
  titleHtml ++ "<div class=\"table-wrapper\"><table class=\"data-table\"><thead><tr>" ++
    strConcat (t.cols.map (fun c => "<th>" ++ c ++ "</th>")) ++
    "</tr></thead><tbody>" ++
    strConcat (t.cells.map (fun cs =>
      "<tr>" ++ strConcat (cs.map (fun s => "<td>" ++ s ++ "</td>")) ++ "</tr>")) ++
    "</tbody></table></div>"

-- ==================== Search behavior (app.js lines 240–259) ====================

/-- The input handler installed by `setupSearchForContainer` (app.js lines
248–258), as a function from the captured row texts and the query to the
per-row visibility (`true` = `display:""`, `false` = `display:"none"`).
The row list is captured once from the already-rendered `tbody`, so the
handler operates over the rendered row set without re-fetching. -/
def searchFilter (rowTexts : List String) (query : String) : List Bool :=
  let q := jsToLower (jsTrim query)
  if q == "" then rowTexts.map (fun _ => true)
  else rowTexts.map (fun t => strHasSub (jsToLower t) q)

-- ==================== Data loaders ====================

/-- Outcome of a `fetch` from the loader's point of view: a rejected promise
(network failure), a non-2xx response carrying whatever `resp.json()` gave
for the body (`{}` on parse failure), or a parsed success payload. -/
inductive FetchOutcome (α : Type) where
  | reject
  | httpError (err : Row)
  | ok (data : α)

/-- The parsed JSON of a `/api/totals` response; absent fields are
`undefined`. -/
structure TotalsJson where
  visited : JVal
  not_visited : JVal
  total : JVal
  prev_visited : JVal
  prev_not_visited : JVal
  prev_total : JVal
  delta_visited : JVal
  delta_not_visited : JVal
  delta_total : JVal
  prev_run_date : JVal
  deriving Repr, DecidableEq

/-- The rendered state of the three cards and their delta lines. -/
structure Cards where
  visited : String
  notVisited : String
  total : String
  visitedDelta : DeltaOutput
  notVisitedDelta : DeltaOutput
  totalDelta : DeltaOutput
  deriving Repr, DecidableEq

/-- The success path of `loadTotals` (app.js lines 159–196): defensive
numeric parsing, card text assignment, and the three `updateDelta` calls. -/
def renderTotals (d : TotalsJson) : Cards :=
  let visited := toNumber (jsOr d.visited (.int 0))
  let notVisited := toNumber (jsOr d.not_visited (.int 0))
  let total := toNumber (jsOr d.total (.int 0))
  let prevVisited := parsePrevVal d.prev_visited
  let prevNot := parsePrevVal d.prev_not_visited
  let prevTotal := parsePrevVal d.prev_total
  let prevDate := jsOr d.prev_run_date .null
  { visited := jsToString visited
    notVisited := jsToString notVisited
    total := jsToString total
    notVisitedDelta := updateDelta prevNot d.delta_not_visited prevDate "لم تزار"
    visitedDelta := updateDelta prevVisited d.delta_visited prevDate "تمت الزيارة"
    totalDelta := updateDelta prevTotal d.delta_total prevDate "اجمالي الزيارات" }

/-- One dataset handed to the chart library (app.js lines 362–392). -/
structure Dataset where
  label : String
  data : List ℤ
  backgroundColor : String
  stack : String
  deriving Repr, DecidableEq

/-- The parsed JSON of a `/api/chart-data/compare` response. -/
structure ChartJson where
  labels : List String
  current_visited : List ℤ
  current_not : List ℤ
  prev_visited : List ℤ
  prev_not : List ℤ
  has_prev : JVal
  deriving Repr, DecidableEq

/-- Dataset assembly of `loadChart` (app.js lines 362–392): the two
current-day stacks always, the two previous-day stacks only when
`data.has_prev` is truthy. -/
def chartDatasets (d : ChartJson) : List Dataset :=
  let base : List Dataset :=
    [ { label := "اليوم الحالي - تمت الزيارة", data := d.current_visited,
        backgroundColor := "#D4AF91", stack := "current" },
      { label := "اليوم الحالي - لم تزار", data := d.current_not,
        backgroundColor := "#973D4B", stack := "current" } ]
  if jsTruthy d.has_prev then
    base ++
      [ { label := "اليوم السابق - تمت الزيارة", data := d.prev_visited,
          backgroundColor := "#E3A778", stack := "previous" },
        { label := "اليوم السابق - لم تزار", data := d.prev_not,
          backgroundColor := "#973D4B", stack := "previous" } ]
  else base

/-- The one live chart instance (`visitsChart`): its labels and datasets. -/
structure ChartInst where
  labels : List String
  datasets : List Dataset
  deriving Repr, DecidableEq

/-- The parsed JSON of a `/api/municipality/:name/details` response
(`data.summary || []` and `data.raw || []` treat an absent array as empty). -/
structure DetailsJson where
  summary : Option (List Row)
  raw : Option (List Row)

-- ==================== Percentage extension (app.js lines 294–300) ====================

/-- A JavaScript number arising in the percentage computation: an exact
fraction `num / den` with `den > 0`, or `NaN`. -/
inductive JSNum where
  | frac (num den : ℤ)
  | nan
  deriving Repr, DecidableEq

/-- Property read `row[k]` (absent reads as `undefined`). -/
def jsGet (row : Row) (k : String) : JVal :=
  (row.lookup k).getD .undefVal

/-- Round the integer fraction `n / d` (`d > 0`) to the nearest integer,
ties to even — the IEEE 754 default rounding. -/
def rne (n d : ℤ) : ℤ :=
  let q := Int.fdiv n d
  let r := n - q * d
  if 2 * r > d then q + 1
  else if 2 * r < d then q
  else if q % 2 = 0 then q else q + 1

/-- Number of binary digits of `n`, by fuel recursion (the first argument
only bounds the depth). -/
def bitLenAux : ℕ → ℕ → ℕ
  | 0, _ => 0
  | fuel + 1, n => if n = 0 then 0 else bitLenAux fuel (n / 2) + 1

/-- Number of binary digits of `n`: `2 ^ (bitLen n - 1) ≤ n < 2 ^ bitLen n`
for `n > 0`. -/
def bitLen (n : ℕ) : ℕ := bitLenAux n n

/-- Whether `2 ^ e * b ≤ a` for an integer (possibly negative) exponent. -/
def pow2MulLe (e : ℤ) (b a : ℤ) : Bool :=
  if 0 ≤ e then decide (b * (2 : ℤ) ^ e.toNat ≤ a) else decide (b ≤ a * (2 : ℤ) ^ (-e).toNat)

/-- The floor of the base-2 logarithm of `a / b` (`a, b > 0`): the `e` with
`2 ^ e ≤ a / b < 2 ^ (e + 1)`. -/
def ilog2Frac (a b : ℤ) : ℤ :=
  let e0 : ℤ := (bitLen a.natAbs : ℤ) - (bitLen b.natAbs : ℤ)
  if pow2MulLe e0 b a then e0 else e0 - 1

/-- The 53-bit significand of `a / b` at exponent `e`: the nearest-even
rounding of `(a / b) · 2 ^ (52 - e)`, an integer in `[2^52, 2^53]`. -/
def fp64sig (a b : ℤ) (e : ℤ) : ℤ :=
  if 0 ≤ 52 - e then rne (a * (2 : ℤ) ^ (52 - e).toNat) b
  else rne a (b * (2 : ℤ) ^ (e - 52).toNat)

/-- The IEEE binary64 value nearest `a / b` for `a ≥ 0 < b`, as the exact
fraction `(num, den)` with `den` a power of two: round-to-nearest,
ties-to-even at 53 significant bits, with unbounded exponent range.  This
agrees exactly with JavaScript number arithmetic whenever the quantity lies
in the normal double range — as every percentage this dashboard computes
from integer counts does (overflow needs ratios beyond `2^1024`, subnormals
ratios below `2^-1022`). -/
def fp64divPos (a b : ℤ) : ℤ × ℤ :=
  if a = 0 then (0, 1)
  else
    let e := ilog2Frac a b
    let m := fp64sig a b e
    let me := if m = 2 ^ 53 then (((2 : ℤ) ^ 52 : ℤ), e + 1) else (m, e)
    if 0 ≤ me.2 - 52 then (me.1 * (2 : ℤ) ^ (me.2 - 52).toNat, 1)
    else (me.1, (2 : ℤ) ^ (52 - me.2).toNat)

/-- JavaScript `a / b` on numbers (`b > 0`): the binary64 rounding of the
exact quotient, sign-symmetric as IEEE rounding is. -/
def fp64div (a b : ℤ) : ℤ × ℤ :=
  if a < 0 then
    let p := fp64divPos (-a) b
    (-p.1, p.2)
  else fp64divPos a b

/-- JavaScript `d * 100` on a number held as the exact fraction `p`: the
exact product re-rounded to binary64 (IEEE multiplication rounds the exact
product; the denominator is a power of two, so `fp64div` applies). -/
def fp64mul100 (p : ℤ × ℤ) : ℤ × ℤ := fp64div (p.1 * 100) p.2

/-- The percentage value of a summary row (app.js lines 296–298):
`total > 0 ? (visited / total) * 100 : 0` over
`total = Number(row["إجمالي_الرخص"] ?? 0)` and
`visited = Number(row["تمت الزيارة"] ?? 0)`.  The two arithmetic steps are
JavaScript double operations, each rounding to binary64 (`fp64div`, then
`fp64mul100`); a `NaN` total fails the guard and a `NaN` visited propagates
through the division. -/
def pctOf (row : Row) : JSNum :=
  match toNumber (jsCoalesce (jsGet row "إجمالي_الرخص") (.int 0)),
        toNumber (jsCoalesce (jsGet row "تمت الزيارة") (.int 0)) with
  | .int t, .int v =>
      if 0 < t then .frac (fp64mul100 (fp64div v t)).1 (fp64mul100 (fp64div v t)).2
      else .frac 0 1
  | .int t, _ => if 0 < t then .nan else .frac 0 1
  | _, _ => .frac 0 1

/-- Model of `Number.prototype.toFixed(1)` on the exact value `num / den`
of a non-negative number (`num ≥ 0 < den`): ECMAScript picks the integer
`n` with `n / 10` closest to the value, larger `n` on ties, i.e.
`n = ⌊value·10 + 1/2⌋`, here computed by floor division. -/
def toFixed1FracNN (num den : ℤ) : String :=
  let n : ℤ := Int.fdiv (20 * num + den) (2 * den)
  toString (n.natAbs / 10) ++ "." ++ toString (n.natAbs % 10)

/-- Model of `Number.prototype.toFixed(1)` on the exact value `num / den`
(`den > 0`): ECMAScript formats a negative number as `"-"` followed by the
formatting of its negation. -/
def toFixed1Frac (num den : ℤ) : String :=
  if num < 0 then "-" ++ toFixed1FracNN (-num) den else toFixed1FracNN num den

/-- Model of `Number.prototype.toFixed(1)` on a `JSNum`. -/
def toFixed1 : JSNum → String
  | .nan => "NaN"
  | .frac num den => toFixed1Frac num den

/-- JavaScript `{...row, k: v}`: an existing property keeps its position and
is overwritten, a new property is appended. -/
def setKey (row : Row) (k : String) (v : JVal) : Row :=
  if (row.lookup k).isSome then row.map (fun p => if p.1 == k then (k, v) else p)
  else row ++ [(k, v)]

/-- The summary-row map of `loadMunicipalityDetails` (app.js lines 295–300):
extend the row with the formatted percentage field `النسبة`. -/
def extendSummaryRow (row : Row) : Row :=
  setKey row "النسبة" (.str (toFixed1 (pctOf row) ++ "%"))

-- ==================== Loader state transitions ====================

/-- The page state the loaders read and write: the global filter, the status
line, the card values, the chart instance, and the two details containers. -/
structure AppState where
  filter : FilterState
  status : String
  cards : Cards
  chart : Option ChartInst
  summaryHtml : String
  rawHtml : String

/-- Function `loadTotals` (app.js lines 135–204) as a transition on the page state,
given the outcome of its fetch: a rejected fetch is caught and reported as a
connection error, a non-2xx response as "no data", and a success response
re-renders the cards and clears the status line. -/
def loadTotals (st : AppState) (r : FetchOutcome TotalsJson) : AppState :=
  match r with
  | .reject => { st with status := "خطأ في الاتصال بالخادم." }
  | .httpError _ => { st with status := "لا توجد بيانات متاحة." }
  | .ok d => { st with status := "", cards := renderTotals d }

/-- Function `loadChart` (app.js lines 341–409) as a transition on the page state:
no canvas means an early return; a rejected fetch is caught and logged; a
non-2xx response returns before touching the chart; a success response
destroys the previous instance and renders a new one. -/
def loadChart (canvasPresent : Bool) (st : AppState) (r : FetchOutcome ChartJson) : AppState :=
  if !canvasPresent then st
  else
    match r with
    | .reject => st
    | .httpError _ => st
    | .ok d => { st with chart := some { labels := d.labels, datasets := chartDatasets d } }

/-- The preferred summary column order (app.js line 303). -/
def summaryOrder : List String :=
  ["التصنيف", "إجمالي_الرخص", "تمت الزيارة", "لم تزار", "النسبة"]

/-- The preferred raw column order (app.js lines 304–311). -/
def rawOrder : List String :=
  ["رقم الزيارة", "الامانة", "البلدية", "اسم الحي", "اسم المراقب", "تاريخ ووقت الاسناد",
   "تاريخ الاسناد", "وقت  اسناد الزيارة", "تاريخ بدء الزيارة", "تاريخ انهاء الزيارة", "مدة الزيارة",
   "نوع الرقابة", "درجة خطورة النشاط", "درجة الامتثال", "رقم البلاغ", "حالة الزيارة", "نوع الزيارة",
   "رقم الجهة", "اسم الجهة", "قيمة المخالفة", "هل المخالفة انذار", "رقم بند اللائحة", "رقم الرخصة",
   "اسم المنشأة", "المرحلة", "عدد البنود الغير ممتثلة", "اسم الادارة", "license_id_str", "الحالات",
   "MUNICIPALITY_EN", "التصنيف"]

/-- The summary container wrapper (app.js lines 314–321). -/
def summaryBlockHtml (tableHtml : String) : String :=
  "\n      <div class=\"table-title\">ملخص الزيارات حسب التصنيف</div>\n      <div class=\"search-container\">\n        <input type=\"text\" class=\"table-search search-input\" placeholder=\"بحث...\" />\n        <span class=\"search-icon\">🔍</span>\n      </div>\n      " ++ tableHtml ++ "\n    "

/-- The raw container wrapper (app.js lines 324–330). -/
def rawBlockHtml (tableHtml : String) : String :=
  "\n      <div class=\"table-title\">الزيارات وحالاتها </div>\n      <div class=\"search-container\">\n        <input type=\"text\" class=\"table-search search-input\" placeholder=\"بحث...\" />\n      </div>\n      " ++ tableHtml ++ "\n    "

/-- Function `loadMunicipalityDetails` (app.js lines 262–338) as a transition on the
page state, given the outcome of its fetch (unused when no fetch happens):
missing containers mean an early return; a sector-bound page clears both
containers; no selected municipality shows a placeholder; then a rejected
fetch is caught and reported, a non-2xx response shows the body's `error`
message or a default, and a success response renders the two tables with the
summary rows extended by the percentage field. -/
def loadMunicipalityDetails (attr : Option String) (hasContainers : Bool)
    (st : AppState) (r : FetchOutcome DetailsJson) : AppState :=
  if !hasContainers then st
  else if jsTruthyOpt (getBodySector attr) then
    { st with summaryHtml := "", rawHtml := "" }
  else
    if !jsTruthyOpt (getMunicipalityFilter attr st.filter) then
      { st with summaryHtml := "<div class='table-empty'>اختر بلديه لعرض التفاصيل</div>", rawHtml := "" }
    else
      match r with
      | .reject =>
          { st with summaryHtml := "<div class='table-error'>خطأ في الاتصال.</div>", rawHtml := "" }
      | .httpError err =>
          let msg := jsOr (jsGet err "error") (.str "تعذر تحميل تفاصيل البلدية.")
          { st with summaryHtml := "<div class='table-error'>" ++ jsToString msg ++ "</div>", rawHtml := "" }
      | .ok d =>
          let summaryRows := (d.summary.getD []).map extendSummaryRow
          let rawRows := d.raw.getD []
          { st with
            summaryHtml := summaryBlockHtml (buildTableHtml summaryRows summaryOrder .null)
            rawHtml := rawBlockHtml (buildTableHtml rawRows rawOrder .null) }

-- ==================== Home filter handlers (app.js lines 73–132) ====================

/-- Sector metadata entry (`/api/meta/sectors` value): display label and the
sector's municipality list (`Array.isArray` guards a malformed field). -/
structure SectorInfo where
  label : JVal
  municipalities : Option (List String)
  deriving Repr, DecidableEq

/-- The sector metadata mapping `sectorMeta`. -/
abbrev SectorMeta := List (String × SectorInfo)

/-- The municipality `<select>`: its option list (value, text) and disabled
flag. -/
structure MuniControl where
  options : List (String × String)
  disabled : Bool
  deriving Repr, DecidableEq

/-- The all-municipalities option `<option value="">كل البلديات</option>`. -/
def allMuniOption : String × String := ("", "كل البلديات")

/-- The sector `change` handler installed by `setupHomeFilters` (app.js
lines 92–120), as a transition on the filter state and the municipality
control, given `sectorSelect.value`. -/
def sectorChange (meta : SectorMeta) (_f : FilterState) (_mc : MuniControl)
    (selVal : String) : FilterState × MuniControl :=
  let val := selVal
  if val == "" then
    ({ sector := none, municipality := none }, { options := [allMuniOption], disabled := true })
  else
    let opts :=
      match meta.lookup val with
      | some info =>
        match info.municipalities with
        | some ms => allMuniOption :: ms.map (fun m => (m, m))
        | none => [allMuniOption]
      | none => [allMuniOption]
    ({ sector := some val, municipality := none }, { options := opts, disabled := false })

-- ==================== sample page states ====================

/-- A concrete rendered chart, as left by a successful earlier load. -/
def sampleChart : ChartInst :=
  { labels := ["بلدية أبها"],
    datasets := [ { label := "اليوم الحالي - تمت الزيارة", data := [3],
                    backgroundColor := "#D4AF91", stack := "current" } ] }

/-- A concrete card rendering. -/
def sampleCards : Cards :=
  { visited := "10", notVisited := "5", total := "15",
    visitedDelta := { text := "", cls := .neutral },
    notVisitedDelta := { text := "", cls := .neutral },
    totalDelta := { text := "", cls := .neutral } }

/-- A concrete page state with a previously rendered chart. -/
def sampleState : AppState :=
  { filter := { sector := some "khamis", municipality := none },
    status := "", cards := sampleCards, chart := some sampleChart,
    summaryHtml := "", rawHtml := "" }

-- ==================== helper lemmas ====================

lemma hasPfx_append (l m : List Char) : hasPfx l (l ++ m) = true := by
  induction l with
  | nil => rfl
  | cons c cs ih => simp [hasPfx, ih]

lemma listHasSub_of_hasPfx {pat l : List Char} (h : hasPfx pat l = true) :
    listHasSub pat l = true := by
  cases l with
  | nil => simpa [listHasSub] using h
  | cons c cs => simp [listHasSub, h]

lemma strHasSub_append_right (a b : String) : strHasSub (a ++ b) a = true := by
  unfold strHasSub
  apply listHasSub_of_hasPfx
  rw [String.data_append]
  exact hasPfx_append a.data b.data

-- ==================== C1: the delta classifier ====================

/-- C1 (amended): the classifier yields NoPriorRun exactly when the previous
value is `null`, the delta is `null`, or the previous-run date is `null`
(a field missing from the response is not recognized: a missing previous
value reaches the classifier as `NaN` and a missing delta as `undefined`,
and with a known previous-run date both fall through to the Unchanged
branch); otherwise an integer delta classifies by sign, with `+delta` in the
Increased message and the negative sign preserved in the Decreased message;
and the four literal examples behave as listed. -/
theorem C1_delta_classifier (p d date : JVal) (lab : String) :
    (updateDeltaKind p d date = .noPriorRun ↔ (p = .null ∨ d = .null ∨ date = .null))
    ∧ (∀ n : ℤ, p ≠ .null → date ≠ .null →
        updateDeltaKind p (.int n) date =
          (if 0 < n then .increased else if n < 0 then .decreased else .unchanged))
    ∧ (∀ n : ℤ, 0 < n → p ≠ .null → date ≠ .null →
        strHasSub (updateDelta p (.int n) date lab).text ("+" ++ toString n) = true)
    ∧ (∀ n : ℤ, n < 0 → p ≠ .null → date ≠ .null →
        strHasSub (updateDelta p (.int n) date lab).text (toString n) = true)
    ∧ (p ≠ .null → date ≠ .null → updateDeltaKind p .undefVal date = .unchanged)
    ∧ updateDeltaKind (.int 8) (.int 2) (.str "2024-05-01") = .increased
    ∧ strHasSub (updateDelta (.int 8) (.int 2) (.str "2024-05-01") lab).text "+2" = true
    ∧ updateDeltaKind (.int 5) (.int 0) (.str "2024-05-01") = .unchanged
    ∧ updateDelta .null .null (.str "2024-05-01") lab
        = { text := "لا يوجد تشغيل سابق لـ " ++ lab, cls := .neutral }
    ∧ updateDeltaKind (.int 6) (.int (-3)) (.str "2024-05-01") = .decreased
    ∧ strHasSub (updateDelta (.int 6) (.int (-3)) (.str "2024-05-01") lab).text "-3" = true := by
  have hkind : ∀ n : ℤ, p ≠ .null → date ≠ .null →
      updateDeltaKind p (.int n) date =
        (if 0 < n then .increased else if n < 0 then .decreased else .unchanged) := by
    intro n hp hdate
    unfold updateDeltaKind
    rw [if_neg (by simp [hp, hdate])]
    simp [jsGtZero, jsLtZero, toNumber]
  have hplus2 : strHasSub (updateDelta (.int 8) (.int 2) (.str "2024-05-01") lab).text "+2" = true := by
    have h8 : (updateDelta (.int 8) (.int 2) (.str "2024-05-01") lab).text
        = "+2 مقارنةً بالتشغيل السابق (2024-05-01)" := rfl
    rw [h8]; decide
  have hminus3 : strHasSub (updateDelta (.int 6) (.int (-3)) (.str "2024-05-01") lab).text "-3" = true := by
    have h6 : (updateDelta (.int 6) (.int (-3)) (.str "2024-05-01") lab).text
        = "-3 مقارنةً بالتشغيل السابق (2024-05-01)" := rfl
    rw [h6]; decide
  refine ⟨?_, hkind, ?_, ?_, ?_, by decide, hplus2, by decide, rfl, by decide, hminus3⟩
  · unfold updateDeltaKind
    split_ifs with h <;> simp_all
  · intro n hn hp hdate
    have htext : (updateDelta p (.int n) date lab).text
        = ("+" ++ toString n) ++ (" مقارنةً بالتشغيل السابق (" ++ (jsToString date ++ ")")) := by
      unfold updateDelta
      rw [hkind n hp hdate, if_pos hn]
      simp [jsToString, String.append_assoc]
    rw [htext]
    exact strHasSub_append_right _ _
  · intro n hn hp hdate
    have htext : (updateDelta p (.int n) date lab).text
        = (toString n) ++ (" مقارنةً بالتشغيل السابق (" ++ (jsToString date ++ ")")) := by
      unfold updateDelta
      rw [hkind n hp hdate, if_neg (by omega), if_pos hn]
      simp [jsToString, String.append_assoc]
    rw [htext]
    exact strHasSub_append_right _ _
  · intro hp hdate
    unfold updateDeltaKind
    rw [if_neg (by simp [hp, hdate])]
    simp [jsGtZero, jsLtZero, toNumber]

/-- C1 counterexample to the claim as stated: with the previous-value field
and the delta field both missing from the response (the invariant allows
this: both are absent) while the previous-run date is known, the parsed
previous value is `NaN` and the delta is `undefined`, and the classifier
lands in the Unchanged branch, not NoPriorRun as the claim's reading of
"absent covers a missing field" requires. -/
theorem C1_delta_classifier_counterexample :
    updateDeltaKind (parsePrevVal .undefVal) .undefVal (jsOr (.str "2024-05-01") .null) = .unchanged
    ∧ updateDeltaKind (parsePrevVal .undefVal) .undefVal (jsOr (.str "2024-05-01") .null) ≠ .noPriorRun
    ∧ (updateDelta (parsePrevVal .undefVal) .undefVal (jsOr (.str "2024-05-01") .null) "تمت الزيارة").text
        = "لا تغيير مقارنةً بالتشغيل السابق (2024-05-01)" := by
  decide

/-- C1 witness: the amended theorem applied at the literal `(10, 8, 2)`
example's classifier inputs. -/
theorem C1_delta_classifier_witness :
    updateDeltaKind (.int 8) (.int 2) (.str "2024-05-01") = .increased := by
  have h := (C1_delta_classifier (.int 8) (.int 2) (.str "2024-05-01") "تمت الزيارة").2.1
    2 (by decide) (by decide)
  simpa using h

-- ==================== C2: scope resolution ====================

lemma getBodySector_ne_empty {attr : Option String} {b : String}
    (h : getBodySector attr = some b) : b ≠ "" := by
  rcases attr with _ | s
  · simp [getBodySector] at h
  · unfold getBodySector at h
    by_cases hs : s == ""
    · simp [hs] at h
    · simp [hs] at h
      subst h
      simpa using hs

/-- C2: each loader derives its request from the specification's scope
resolution rule: on a page with a bound sector every request is scoped to
that sector whatever the filter holds (the municipality selection is never
consulted, and the details loader fetches nothing); otherwise a selected
municipality takes priority over a selected sector, then the sector, then
all data. -/
theorem C2_scope_resolution (attr : Option String) (f : FilterState) (hf : f.wf) :
    loadTotalsUrl attr f = totalsUrlOfScope (resolveScope attr f)
    ∧ loadChartQuery attr f = chartQueryOfScope (resolveScope attr f)
    ∧ (∀ b, getBodySector attr = some b →
        resolveScope attr f = .bySector b
        ∧ getMunicipalityFilter attr f = none
        ∧ loadDetailsRequest attr f = none
        ∧ ∀ f', loadTotalsUrl attr f' = loadTotalsUrl attr f
            ∧ loadChartQuery attr f' = loadChartQuery attr f
            ∧ loadDetailsRequest attr f' = none)
    ∧ (getBodySector attr = none →
        (∀ m, f.municipality = some m → resolveScope attr f = .byMunicipality m)
        ∧ (f.municipality = none → ∀ k, f.sector = some k → resolveScope attr f = .bySector k)
        ∧ (f.municipality = none → f.sector = none → resolveScope attr f = .allData)) := by
  obtain ⟨hs, hm⟩ := hf
  rcases hb : getBodySector attr with _ | b
  · have hsk : getSectorKey attr f = f.sector := by
      simp [getSectorKey, hb, jsTruthyOpt]
    have hmf : getMunicipalityFilter attr f = f.municipality := by
      simp [getMunicipalityFilter, hb, jsTruthyOpt]
    rcases hmu : f.municipality with _ | m
    · rcases hse : f.sector with _ | k
      · refine ⟨?_, ?_, ?_, ?_⟩
        · simp [loadTotalsUrl, getSectorKey, getMunicipalityFilter, resolveScope,
            totalsUrlOfScope, hb, hmu, hse, jsTruthyOpt]
        · simp [loadChartQuery, getSectorKey, getMunicipalityFilter, resolveScope,
            chartQueryOfScope, hb, hmu, hse, jsTruthyOpt]
        · intro b hb'
          simp at hb'
        · intro _
          refine ⟨?_, ?_, ?_⟩
          · intro m hm'
            simp at hm'
          · intro _ k hk'
            simp at hk'
          · intro _ _
            simp [resolveScope, hb, hmu, hse]
      · have hkne : k ≠ "" := by
          intro hk
          exact hs (by rw [hse, hk])
        refine ⟨?_, ?_, ?_, ?_⟩
        · simp [loadTotalsUrl, getSectorKey, getMunicipalityFilter, resolveScope,
            totalsUrlOfScope, hb, hmu, hse, jsTruthyOpt, hkne]
        · simp [loadChartQuery, getSectorKey, getMunicipalityFilter, resolveScope,
            chartQueryOfScope, hb, hmu, hse, jsTruthyOpt, hkne]
        · intro b hb'
          simp at hb'
        · intro _
          refine ⟨?_, ?_, ?_⟩
          · intro m hm'
            simp at hm'
          · intro _ k' hk'
            injection hk' with hkk
            subst hkk
            simp [resolveScope, hb, hmu, hse]
          · intro _ h0
            simp at h0
    · have hmne : m ≠ "" := by
        intro hmm
        exact hm (by rw [hmu, hmm])
      refine ⟨?_, ?_, ?_, ?_⟩
      · simp [loadTotalsUrl, getSectorKey, getMunicipalityFilter, resolveScope,
          totalsUrlOfScope, hb, hmu, jsTruthyOpt, hmne]
      · simp [loadChartQuery, getSectorKey, getMunicipalityFilter, resolveScope,
          chartQueryOfScope, hb, hmu, jsTruthyOpt, hmne]
      · intro b hb'
        simp at hb'
      · intro _
        refine ⟨?_, ?_, ?_⟩
        · intro m' hm'
          injection hm' with hmm
          subst hmm
          simp [resolveScope, hb, hmu]
        · intro h0
          simp at h0
        · intro h0
          simp at h0
  · have hbne : b ≠ "" := getBodySector_ne_empty hb
    refine ⟨?_, ?_, ?_, ?_⟩
    · simp [loadTotalsUrl, getSectorKey, getMunicipalityFilter, resolveScope,
        totalsUrlOfScope, hb, jsTruthyOpt, hbne]
    · simp [loadChartQuery, getSectorKey, getMunicipalityFilter, resolveScope,
        chartQueryOfScope, hb, jsTruthyOpt, hbne]
    · intro b' hb'
      injection hb' with hbb
      subst hbb
      refine ⟨by simp [resolveScope, hb],
        by simp [getMunicipalityFilter, hb, jsTruthyOpt, hbne],
        by simp [loadDetailsRequest, hb, jsTruthyOpt, hbne], ?_⟩
      intro f'
      refine ⟨?_, ?_, ?_⟩
      · simp [loadTotalsUrl, getSectorKey, getMunicipalityFilter, hb, jsTruthyOpt, hbne]
      · simp [loadChartQuery, getSectorKey, getMunicipalityFilter, hb, jsTruthyOpt, hbne]
      · simp [loadDetailsRequest, hb, jsTruthyOpt, hbne]
    · intro h0
      simp at h0

/-- C2 witness: the specification's own example — bound sector `"abha"` with
sector `"khamis"` and municipality `"X"` selected — resolves to the bound
sector for the totals request. -/
theorem C2_scope_resolution_witness :
    loadTotalsUrl (some "abha") { sector := some "khamis", municipality := some "X" }
      = totalsUrlOfScope (resolveScope (some "abha")
          { sector := some "khamis", municipality := some "X" })
    ∧ resolveScope (some "abha") { sector := some "khamis", municipality := some "X" }
      = .bySector "abha" := by
  refine ⟨(C2_scope_resolution (some "abha")
    { sector := some "khamis", municipality := some "X" } (by decide)).1, ?_⟩
  exact ((C2_scope_resolution (some "abha")
    { sector := some "khamis", municipality := some "X" } (by decide)).2.2.1 "abha" rfl).1

-- ==================== C3: failed chart load ====================

/-- C3 counterexample to the claim as stated: with a chart already rendered
for an earlier scope, a failed chart-data fetch leaves that chart in place —
the previously rendered chart, labels and all, remains visible. -/
theorem C3_chart_error_counterexample :
    (loadChart true sampleState (.httpError [])).chart = some sampleChart
    ∧ (loadChart true sampleState (.httpError [])).chart ≠ none
    ∧ sampleChart.labels = ["بلدية أبها"] := by
  refine ⟨rfl, by decide, rfl⟩

/-- C3 (amended): on a non-success response (and on a rejected fetch)
`loadChart` returns before destroying or re-rendering, so the page state is
left exactly as it was: a previously rendered chart — with the labels of the
scope it was rendered for — remains visible, and only when no chart had been
rendered does the chart area stay unrendered. -/
theorem C3_chart_error_keeps_state (canvasPresent : Bool) (st : AppState) (err : Row) :
    loadChart canvasPresent st (.httpError err) = st
    ∧ loadChart canvasPresent st .reject = st
    ∧ (st.chart = none → (loadChart canvasPresent st (.httpError err)).chart = none) := by
  unfold loadChart
  cases canvasPresent <;> simp

/-- C3 witness: the amended theorem applied at a concrete state with no
chart rendered. -/
theorem C3_chart_error_keeps_state_witness :
    loadChart true { sampleState with chart := none } (.httpError []) =
      { sampleState with chart := none }
    ∧ (loadChart true { sampleState with chart := none } (.httpError [])).chart = none := by
  refine ⟨(C3_chart_error_keeps_state true { sampleState with chart := none } []).1,
    (C3_chart_error_keeps_state true { sampleState with chart := none } []).2.2 rfl⟩

-- ==================== C4: the table renderer ====================

lemma foldl_append_strConcat {α : Type} (g : α → String) :
    ∀ (l : List α) (ini : String),
      l.foldl (fun acc x => acc ++ g x) ini = ini ++ strConcat (l.map g) := by
  intro l
  induction l with
  | nil => intro ini; simp [strConcat, String.append_empty]
  | cons a as ih =>
    intro ini
    rw [List.map_cons, List.foldl_cons, ih]
    show (ini ++ g a) ++ strConcat (as.map g) = ini ++ strConcat (g a :: as.map g)
    rw [String.append_assoc]
    rfl

lemma bodyFoldl_eq (cols : List String) :
    ∀ (rows : List Row) (ini : String),
      rows.foldl
        (fun acc row =>
          (cols.foldl (fun a c => a ++ ("<td>" ++ cellText (row.lookup c) ++ "</td>"))
            (acc ++ "<tr>")) ++ "</tr>") ini
      = ini ++ strConcat (rows.map (fun row =>
          "<tr>" ++ strConcat (cols.map (fun c => "<td>" ++ cellText (row.lookup c) ++ "</td>")) ++ "</tr>")) := by
  intro rows
  induction rows with
  | nil => intro ini; simp [strConcat, String.append_empty]
  | cons r rs ih =>
    intro ini
    rw [List.map_cons, List.foldl_cons, ih, foldl_append_strConcat]
    show ((ini ++ "<tr>") ++ strConcat (cols.map _) ++ "</tr>") ++ strConcat (rs.map _)
        = ini ++ strConcat (_ :: rs.map _)
    simp only [strConcat, String.append_assoc]

lemma lookup_isSome_eq_contains (row : Row) (c : String) :
    (row.lookup c).isSome = (row.map Prod.fst).contains c := by
  induction row with
  | nil => rfl
  | cons p rest ih =>
    rcases p with ⟨k, v⟩
    cases h : c == k <;> simp [List.lookup, List.contains, List.elem, h, ih]

lemma tableCols_eq (first : Row) (rest : List Row) (order : List String) :
    (if (if order.length > 0 then order.filter (fun c => (first.lookup c).isSome) else []).length = 0
     then first.map Prod.fst
     else if order.length > 0 then order.filter (fun c => (first.lookup c).isSome) else [])
    = specTableCols (first :: rest) order := by
  have hf : order.filter (fun c => (first.lookup c).isSome)
      = order.filter (fun c => (first.map Prod.fst).contains c) :=
    List.filter_congr (fun c _ => lookup_isSome_eq_contains first c)
  have hrhs : specTableCols (first :: rest) order
      = (if order.filter (fun c => (first.map Prod.fst).contains c) = []
         then first.map Prod.fst
         else order.filter (fun c => (first.map Prod.fst).contains c)) := rfl
  rw [hrhs]
  rcases order with _ | ⟨o, os⟩
  · simp
  · have hlen : (o :: os).length > 0 := Nat.succ_pos _
    rw [if_pos hlen, hf]
    by_cases h0 : List.filter (fun c => (first.map Prod.fst).contains c) (o :: os) = []
    · rw [h0]
      simp
    · rw [if_neg (fun hlen0 => h0 (List.length_eq_zero.mp hlen0)), if_neg h0]

lemma specCellText_eq (row : Row) (c : String) :
    specCellText row c = cellText (row.lookup c) := rfl

/-- C4: for a non-empty row sequence the renderer's output is exactly the
specification's table: the column set is `preferredColumnOrder` filtered to
the first row's keys (falling back to the first row's own key order when the
filter is empty), every row is rendered against that fixed column set (never
re-inspected for extra keys, a missing column giving an empty cell, `null`
or absent cells the empty string, other values their string form); and the
literal example renders with the second row's `b` cell empty. -/
theorem C4_table_renderer (rows : List Row) (order : List String) (title : JVal)
    (hrows : rows ≠ []) :
    buildTableHtml rows order title
      = specTableHtml (specTable rows order)
          (if jsTruthy title then "<div class=\"table-title\">" ++ jsToString title ++ "</div>" else "")
    ∧ buildTableHtml [[("a", .int 1), ("b", .int 2)], [("a", .int 3)]] ["b", "a"] .null
      = "<div class=\"table-wrapper\"><table class=\"data-table\"><thead><tr><th>b</th><th>a</th></tr></thead><tbody><tr><td>2</td><td>1</td></tr><tr><td></td><td>3</td></tr></tbody></table></div>" := by
  refine ⟨?_, by decide⟩
  rcases rows with _ | ⟨first, rest⟩
  · exact absurd rfl hrows
  · unfold buildTableHtml specTableHtml specTable
    rw [if_neg (by simp)]
    simp only [List.headD_cons]
    rw [tableCols_eq first rest order, foldl_append_strConcat, bodyFoldl_eq]
    simp only [specCellText_eq, List.map_map, Function.comp_def, String.empty_append,
      String.append_assoc]

/-- C4 witness: the refinement applied at the specification's literal
example. -/
theorem C4_table_renderer_witness :
    buildTableHtml [[("a", .int 1), ("b", .int 2)], [("a", .int 3)]] ["b", "a"] .null
      = specTableHtml (specTable [[("a", .int 1), ("b", .int 2)], [("a", .int 3)]] ["b", "a"])
          (if jsTruthy .null then "<div class=\"table-title\">" ++ jsToString .null ++ "</div>"
           else "") :=
  (C4_table_renderer [[("a", .int 1), ("b", .int 2)], [("a", .int 3)]] ["b", "a"] .null
    (by simp)).1

-- ==================== C5: the search behavior ====================

/-- C5 (amended): the search handler first trims surrounding whitespace from
the query and lowercases it; a row stays visible exactly when the trimmed
query is empty or the row's lowercased text contains it, so an empty (or
all-whitespace) query shows every row; the handler maps over the captured
rendered row list, so clearing the query restores every row; and the
three-row example behaves as the specification lists. -/
theorem C5_search_filter (rowTexts : List String) (query : String) :
    searchFilter rowTexts query
      = rowTexts.map (fun t =>
          jsTrim query == "" || strHasSub (jsToLower t) (jsToLower (jsTrim query)))
    ∧ searchFilter rowTexts "" = rowTexts.map (fun _ => true)
    ∧ searchFilter ["r one", "TWO x", "r three"] "two" = [false, true, false]
    ∧ searchFilter ["r one", "TWO x", "r three"] "" = [true, true, true] := by
  refine ⟨?_, rfl, by decide, by decide⟩
  unfold searchFilter
  by_cases h : jsTrim query = ""
  · rw [h]
    have h0 : jsToLower "" = "" := rfl
    rw [h0]
    simp
  · have hb : (jsToLower (jsTrim query) == "") = false := by
      refine beq_eq_false_iff_ne.mpr (fun hh => h ?_)
      rcases hq : jsTrim query with ⟨l⟩
      cases l with
      | nil => rfl
      | cons c cs =>
        rw [hq] at hh
        have hd : Char.toLower c :: cs.map Char.toLower = ("" : String).data :=
          congrArg String.data hh
        simp at hd
    have hb2 : (jsTrim query == "") = false := beq_eq_false_iff_ne.mpr h
    simp only [hb, hb2, Bool.false_or]
    simp

/-- C5 counterexample to the claim as stated: the query `" xy "` is
non-empty and does not occur in the row text `"axyb"` (even
case-insensitively), yet the handler trims it to `"xy"` and keeps the row
visible, so the behavior is not "hide exactly the rows whose text does not
contain the query". -/
theorem C5_search_filter_counterexample :
    searchFilter ["axyb"] " xy " = [true]
    ∧ " xy " ≠ ""
    ∧ strHasSub (jsToLower "axyb") (jsToLower " xy ") = false := by
  decide

-- ==================== C6: the sector change handler ====================

/-- C6: on an unbound page, selecting a sector stores it, resets the
municipality selection to none, repopulates the municipality options from
that sector's municipalities list behind the all-municipalities option, and
enables the control; selecting "no sector" clears both filter fields and
restores the disabled control holding only the all-municipalities option. -/
theorem C6_sector_change (meta : SectorMeta) (f : FilterState) (mc : MuniControl)
    (val : String) (info : SectorInfo) (ms : List String)
    (hval : val ≠ "") (hinfo : meta.lookup val = some info)
    (hms : info.municipalities = some ms) :
    sectorChange meta f mc val
      = ({ sector := some val, municipality := none },
         { options := allMuniOption :: ms.map (fun m => (m, m)), disabled := false })
    ∧ sectorChange meta f mc ""
      = ({ sector := none, municipality := none },
         { options := [allMuniOption], disabled := true }) := by
  constructor
  · unfold sectorChange
    rw [if_neg (by simpa using hval)]
    rw [hinfo]
    simp [hms]
  · rfl

/-- C6 witness: the handler applied to a concrete metadata map, selecting
the sector and then deselecting it. -/
theorem C6_sector_change_witness :
    sectorChange [("abha", ⟨.str "أبها", some ["بلدية أبها", "بلدية السودة"]⟩)]
        { sector := none, municipality := none } { options := [allMuniOption], disabled := true }
        "abha"
      = ({ sector := some "abha", municipality := none },
         { options := allMuniOption :: (["بلدية أبها", "بلدية السودة"].map (fun m => (m, m))),
           disabled := false }) :=
  (C6_sector_change [("abha", ⟨.str "أبها", some ["بلدية أبها", "بلدية السودة"]⟩)]
    { sector := none, municipality := none } { options := [allMuniOption], disabled := true }
    "abha" ⟨.str "أبها", some ["بلدية أبها", "بلدية السودة"]⟩ ["بلدية أبها", "بلدية السودة"]
    (by decide) rfl rfl).1

-- ==================== C7: totals loader error handling ====================

/-- C7: when the totals fetch rejects, `loadTotals` catches it and shows the
generic connection-error status; on a non-2xx response it shows the
"no data available" status; in both cases it returns normally (the
transition is total — nothing escapes the `try`/`catch`) and the previously
rendered card values are left unchanged. -/
theorem C7_totals_error_handling (st : AppState) :
    (loadTotals st .reject).status = "خطأ في الاتصال بالخادم."
    ∧ (loadTotals st .reject).cards = st.cards
    ∧ (∀ err : Row, (loadTotals st (.httpError err)).status = "لا توجد بيانات متاحة."
        ∧ (loadTotals st (.httpError err)).cards = st.cards) :=
  ⟨rfl, rfl, fun _ => ⟨rfl, rfl⟩⟩

-- ==================== C8: the empty table ====================

/-- C8: on an empty row sequence the table renderer emits exactly the
"no data" placeholder `<div>`, whatever the preferred order and title, and
that output contains zero `<tr` occurrences — no empty table skeleton. -/
theorem C8_empty_rows_placeholder (preferredOrder : List String) (title : JVal) :
    buildTableHtml [] preferredOrder title
      = "<div class=\"table-empty\">لا توجد بيانات لعرضها.</div>"
    ∧ countTR (buildTableHtml [] preferredOrder title).data = 0 := by
  refine ⟨rfl, ?_⟩
  show countTR ("<div class=\"table-empty\">لا توجد بيانات لعرضها.</div>").data = 0
  decide

-- ==================== C10: the summary percentage ====================

lemma lookup_map_update_ne (row : Row) (k : String) (v : JVal) (k' : String) (h : k' ≠ k) :
    (row.map (fun p => if p.1 == k then (k, v) else p)).lookup k' = row.lookup k' := by
  induction row with
  | nil => rfl
  | cons p rest ih =>
    rcases p with ⟨a, b⟩
    rw [List.map_cons]
    by_cases hak : a = k
    · subst hak
      rw [show (if ((a, b).1 == a) then ((a, v) : String × JVal) else (a, b)) = (a, v)
        from by simp]
      simp only [List.lookup]
      rw [show (k' == a) = false from beq_eq_false_iff_ne.mpr h]
      exact ih
    · rw [show (if ((a, b).1 == k) then ((k, v) : String × JVal) else (a, b)) = (a, b)
        from by simp [hak]]
      simp only [List.lookup]
      cases hk'a : (k' == a)
      · simp only [hk'a]
        exact ih
      · simp [hk'a]

lemma lookup_append_single_ne (row : Row) (k : String) (v : JVal) (k' : String) (h : k' ≠ k) :
    (row ++ [(k, v)]).lookup k' = row.lookup k' := by
  induction row with
  | nil => simp [List.lookup, beq_eq_false_iff_ne.mpr h]
  | cons p rest ih =>
    rcases p with ⟨a, b⟩
    by_cases hk'a : k' = a
    · subst hk'a
      simp [List.lookup]
    · simp [List.lookup, beq_eq_false_iff_ne.mpr hk'a, ih]

lemma lookup_setKey_ne (row : Row) (k : String) (v : JVal) (k' : String) (h : k' ≠ k) :
    (setKey row k v).lookup k' = row.lookup k' := by
  unfold setKey
  by_cases hs : (row.lookup k).isSome
  · rw [if_pos hs]
    exact lookup_map_update_ne row k v k' h
  · rw [if_neg hs]
    exact lookup_append_single_ne row k v k' h

lemma lookup_map_update_self (row : Row) (k : String) (v : JVal)
    (hs : (row.lookup k).isSome) :
    (row.map (fun p => if p.1 == k then (k, v) else p)).lookup k = some v := by
  induction row with
  | nil => simp [List.lookup] at hs
  | cons p rest ih =>
    rcases p with ⟨a, b⟩
    rw [List.map_cons]
    by_cases hak : a = k
    · subst hak
      rw [show (if ((a, b).1 == a) then ((a, v) : String × JVal) else (a, b)) = (a, v)
        from by simp]
      simp [List.lookup]
    · rw [show (if ((a, b).1 == k) then ((k, v) : String × JVal) else (a, b)) = (a, b)
        from by simp [hak]]
      have hka : (k == a) = false := beq_eq_false_iff_ne.mpr (fun hh => hak hh.symm)
      simp only [List.lookup, hka] at hs ⊢
      exact ih hs

lemma lookup_append_single_self (row : Row) (k : String) (v : JVal)
    (hn : row.lookup k = none) :
    (row ++ [(k, v)]).lookup k = some v := by
  induction row with
  | nil => simp [List.lookup]
  | cons p rest ih =>
    rcases p with ⟨a, b⟩
    by_cases hka : k = a
    · subst hka
      simp [List.lookup] at hn
    · have hka' : (k == a) = false := beq_eq_false_iff_ne.mpr hka
      simp only [List.lookup, hka'] at hn
      simp only [List.cons_append, List.lookup, hka']
      exact ih hn

lemma lookup_setKey_self (row : Row) (k : String) (v : JVal) :
    (setKey row k v).lookup k = some v := by
  unfold setKey
  by_cases hs : (row.lookup k).isSome
  · rw [if_pos hs]
    exact lookup_map_update_self row k v hs
  · rw [if_neg hs]
    exact lookup_append_single_self row k v (Option.not_isSome_iff_eq_none.mp hs)

lemma toFixed1Frac_floor (a b : ℤ) (hb : 0 < b) :
    Int.fdiv (20 * a + b) (2 * b) = ⌊((a : ℚ) / (b : ℚ) * 10 + 1 / 2 : ℚ)⌋ := by
  have h2b : (0 : ℤ) ≤ 2 * b := by positivity
  rw [Int.fdiv_eq_ediv _ h2b]
  have hbq : ((b : ℚ)) ≠ 0 := by positivity
  have hnat : (((2 * b).toNat : ℕ) : ℚ) = ((2 * b : ℤ) : ℚ) := by
    rw [← Int.cast_natCast]
    congr 1
    exact Int.toNat_of_nonneg h2b
  have hcast : ((a : ℚ) / (b : ℚ) * 10 + 1 / 2 : ℚ)
      = ((20 * a + b : ℤ) : ℚ) / (((2 * b).toNat : ℕ) : ℚ) := by
    rw [hnat]
    push_cast
    field_simp
    ring
  rw [hcast, Rat.floor_intCast_div_natCast, Int.toNat_of_nonneg h2b]

/-- C10 (amended): the details loader extends every summary row with the
field `النسبة`, leaving every other field of the row unchanged; the value is
the double-precision evaluation of `(تمت الزيارة / إجمالي_الرخص) * 100` —
each arithmetic step rounded to binary64 — formatted by `toFixed(1)` with a
`%` suffix, the formatter's integer rounding being the ECMAScript
nearest-`n`, ties-larger rule `⌊value·10 + 1/2⌋`; the division is guarded:
a `0`, negative, absent or `null` total short-circuits it and the field
reads `0.0%`; the double pipeline agrees with exact-arithmetic rounding at
ordinary inputs (4 licenses / 1 visited → `25.0%`, 3 / 1 → `33.3%`) but
renders `0.1%` at 2000 licenses / 3 visited, where the exact value 0.15
would round up to `0.2%`. -/
theorem C10_summary_percentage (row : Row) :
    (∀ k, k ≠ "النسبة" → (extendSummaryRow row).lookup k = row.lookup k)
    ∧ (extendSummaryRow row).lookup "النسبة"
        = some (.str (toFixed1 (pctOf row) ++ "%"))
    ∧ (∀ t : ℤ, jsGet row "إجمالي_الرخص" = .int t → t ≤ 0 →
        (extendSummaryRow row).lookup "النسبة" = some (.str "0.0%"))
    ∧ (jsGet row "إجمالي_الرخص" = .undefVal →
        (extendSummaryRow row).lookup "النسبة" = some (.str "0.0%"))
    ∧ (jsGet row "إجمالي_الرخص" = .null →
        (extendSummaryRow row).lookup "النسبة" = some (.str "0.0%"))
    ∧ (∀ t v : ℤ, jsGet row "إجمالي_الرخص" = .int t → 0 < t →
        jsGet row "تمت الزيارة" = .int v →
        (extendSummaryRow row).lookup "النسبة"
          = some (.str (toFixed1Frac (fp64mul100 (fp64div v t)).1
              (fp64mul100 (fp64div v t)).2 ++ "%")))
    ∧ (∀ num den : ℤ, 0 < den →
        Int.fdiv (20 * num + den) (2 * den)
          = ⌊((num : ℚ) / (den : ℚ) * 10 + 1 / 2 : ℚ)⌋)
    ∧ (extendSummaryRow [("إجمالي_الرخص", .int 4), ("تمت الزيارة", .int 1)]).lookup "النسبة"
        = some (.str "25.0%")
    ∧ (extendSummaryRow [("إجمالي_الرخص", .int 3), ("تمت الزيارة", .int 1)]).lookup "النسبة"
        = some (.str "33.3%")
    ∧ (extendSummaryRow [("إجمالي_الرخص", .int 2000), ("تمت الزيارة", .int 3)]).lookup "النسبة"
        = some (.str "0.1%") := by
  have hself := lookup_setKey_self row "النسبة" (.str (toFixed1 (pctOf row) ++ "%"))
  have hzero : toFixed1 (.frac 0 1) = "0.0" := by decide
  refine ⟨?_, hself, ?_, ?_, ?_, ?_, fun num den hden => toFixed1Frac_floor num den hden,
    by decide, by decide, by decide⟩
  · intro k hk
    exact lookup_setKey_ne row "النسبة" _ k hk
  · intro t ht hle
    have hnlt : ¬ (0 < t) := not_lt.mpr hle
    have hpct : pctOf row = .frac 0 1 := by
      rcases hv : toNumber (jsCoalesce (jsGet row "تمت الزيارة") (.int 0)) <;>
        (unfold pctOf; rw [ht, hv]; simp [jsCoalesce, toNumber, hnlt])
    unfold extendSummaryRow
    rw [lookup_setKey_self, hpct, hzero]
    rfl
  · intro ht
    have hpct : pctOf row = .frac 0 1 := by
      rcases hv : toNumber (jsCoalesce (jsGet row "تمت الزيارة") (.int 0)) <;>
        (unfold pctOf; rw [ht, hv]; simp [jsCoalesce, toNumber])
    unfold extendSummaryRow
    rw [lookup_setKey_self, hpct, hzero]
    rfl
  · intro ht
    have hpct : pctOf row = .frac 0 1 := by
      rcases hv : toNumber (jsCoalesce (jsGet row "تمت الزيارة") (.int 0)) <;>
        (unfold pctOf; rw [ht, hv]; simp [jsCoalesce, toNumber])
    unfold extendSummaryRow
    rw [lookup_setKey_self, hpct, hzero]
    rfl
  · intro t v ht hpos hv
    have hpct : pctOf row
        = .frac (fp64mul100 (fp64div v t)).1 (fp64mul100 (fp64div v t)).2 := by
      unfold pctOf
      rw [ht, hv]
      simp [jsCoalesce, toNumber, hpos]
    unfold extendSummaryRow
    rw [lookup_setKey_self, hpct]
    rfl

/-- C10 counterexample to the claim as stated: at a summary row with
`إجمالي_الرخص = 2000` and `تمت الزيارة = 3` the doubles `3/2000` and its
product with `100` land strictly below `0.15`, so the program renders
`0.1%` — while `(3/2000) · 100` formatted to one decimal place in exact
arithmetic is `0.2%` (the exact value sits on the tie, which rounds up).
The rendered field is therefore not the exact formula's formatting. -/
theorem C10_summary_percentage_counterexample :
    (extendSummaryRow [("إجمالي_الرخص", .int 2000), ("تمت الزيارة", .int 3)]).lookup "النسبة"
      = some (.str "0.1%")
    ∧ toFixed1Frac (3 * 100) 2000 = "0.2"
    ∧ (extendSummaryRow [("إجمالي_الرخص", .int 2000), ("تمت الزيارة", .int 3)]).lookup "النسبة"
      ≠ some (.str (toFixed1Frac (3 * 100) 2000 ++ "%")) := by
  decide

/-- C10 witness: the amended theorem applied at a concrete summary row with
four licenses, one visited; the double pipeline there is exact and formats
to 25.0%. -/
theorem C10_summary_percentage_witness :
    (extendSummaryRow [("إجمالي_الرخص", .int 4), ("تمت الزيارة", .int 1)]).lookup "النسبة"
      = some (.str (toFixed1Frac (fp64mul100 (fp64div 1 4)).1
          (fp64mul100 (fp64div 1 4)).2 ++ "%"))
    ∧ toFixed1Frac (fp64mul100 (fp64div 1 4)).1 (fp64mul100 (fp64div 1 4)).2 ++ "%"
      = "25.0%" := by
  refine ⟨(C10_summary_percentage [("إجمالي_الرخص", .int 4), ("تمت الزيارة", .int 1)]).2.2.2.2.2.1
    4 1 (by decide) (by decide) (by decide), by decide⟩

-- ==================== C9: loaders do not mutate the filter ====================

/-- C9: none of the three loaders changes `currentFilter` — the filter
component of the page state is preserved by `loadTotals`, `loadChart` and
`loadMunicipalityDetails` for every fetch outcome — and running the totals
loader twice with the same scope and identical responses renders identical
card values. -/
theorem C9_loaders_preserve_filter (st : AppState) :
    (∀ r, (loadTotals st r).filter = st.filter)
    ∧ (∀ canvasPresent r, (loadChart canvasPresent st r).filter = st.filter)
    ∧ (∀ attr hasContainers r,
        (loadMunicipalityDetails attr hasContainers st r).filter = st.filter)
    ∧ (∀ r, (loadTotals (loadTotals st r) r).cards = (loadTotals st r).cards) := by
  refine ⟨?_, ?_, ?_, ?_⟩
  · intro r; cases r <;> rfl
  · intro c r; cases c <;> cases r <;> rfl
  · intro attr hc r
    unfold loadMunicipalityDetails
    repeat' split
    all_goals rfl
  · intro r; cases r <;> rfl

end Complaints
